import Mathlib

/-!
Shallow embedding of the one-time external-access token protocol of the
todo application: the token issuer (`addChatMessage`), the read-path
validator/consumer (`getPublicTaskData`) and the reply acceptor
(`addPublicReply`).  The database is modelled as explicit state (lists of
rows); the current time and the success of each fallible store write are
explicit parameters.  Timestamps are integers (milliseconds), matching the
JavaScript `Date` comparisons in the source.
-/

namespace Todo

/-- JavaScript whitespace characters relevant to `String.prototype.trim`
and the regex class `\s` (ASCII subset). -/
def isJsWs (c : Char) : Bool :=
  c = ' ' || c = '\t' || c = '\n' || c = '\x0d' || c = '\x0b' || c = '\x0c'

/-- Trim on character lists: drop whitespace from both ends. -/
def trimChars (cs : List Char) : List Char :=
  ((cs.dropWhile isJsWs).reverse.dropWhile isJsWs).reverse

/-- Embeds `String.prototype.trim`. -/
def strTrim (s : String) : String := ⟨trimChars s.data⟩

/-- Character class of the local part in `emailPrefixRegex`:
`[a-zA-Z0-9._%+-]`. -/
def isLocalChar (c : Char) : Bool :=
  c.isAlpha || c.isDigit || c = '.' || c = '_' || c = '%' || c = '+' || c = '-'

/-- Character class of the domain in `emailPrefixRegex`: `[a-zA-Z0-9.-]`. -/
def isDomainChar (c : Char) : Bool :=
  c.isAlpha || c.isDigit || c = '.' || c = '-'

/-- Backtracking search for the split of the domain part, embedding the
greedy semantics of `[a-zA-Z0-9.-]+\.[a-zA-Z]{2,}\s+` after the `@`: the
counter is the number of characters the leading `+` consumes, tried from
the maximal run downwards; at each split the literal dot, a maximal
alphabetic run of length at least two and at least one whitespace
character must follow.  Returns the total number of characters matched
after the `@`. -/
def domainSplit (rest : List Char) : Nat → Option Nat
  | 0 => none
  | i + 1 =>
    match rest.drop (i + 1) with
    | '.' :: tl =>
      let tld := tl.takeWhile (fun c => c.isAlpha)
      if 2 ≤ tld.length then
        let ws := (tl.drop tld.length).takeWhile isJsWs
        if 1 ≤ ws.length then some (i + 1 + 1 + tld.length + ws.length)
        else domainSplit rest i
      else domainSplit rest i
    | _ => domainSplit rest i

/-- Embeds matching of the anchored
`emailPrefixRegex = /^[a-zA-Z0-9._%+-]+@[a-zA-Z0-9.-]+\.[a-zA-Z]{2,}\s+/`
against the start of the character list; returns the length of the match
(match index 0), or `none` when the regex does not match. -/
def emailMatchLen (cs : List Char) : Option Nat :=
  let loc := cs.takeWhile isLocalChar
  if loc.length = 0 then none
  else
    match cs.drop loc.length with
    | '@' :: rest => (domainSplit rest (rest.takeWhile isDomainChar).length).map
        (fun n => loc.length + 1 + n)
    | _ => none

/-- Row of the `task_access_tokens` table. -/
structure AccessToken where
  id : Nat
  token : String
  task_id : Nat
  message_id : Nat
  target_email : String
  created_by_user_id : String
  expires_at : Int
  used_at : Option Int
  deriving DecidableEq, Repr

/-- Subset of a `tasks` row read by the protocol (`id, name, description`). -/
structure Task where
  id : Nat
  name : String
  description : Option String
  deriving DecidableEq, Repr

/-- Row of the `messages` table (protocol-relevant columns). -/
structure Message where
  id : Nat
  task_id : Nat
  user_id : Option String
  sender_email : Option String
  content : String
  is_external : Bool
  deriving DecidableEq, Repr

/-- The store state: the three tables the protocol touches. -/
structure DB where
  tasks : List Task
  messages : List Message
  tokens : List AccessToken
  deriving DecidableEq, Repr

/-- Embeds the `.single()` modifier of the query interface: the call
succeeds exactly when exactly one row matched. -/
def single? {α : Type} : List α → Option α
  | [a] => some a
  | _ => none

/-- Embeds `.from('task_access_tokens').select(...).eq('token', t).single()`. -/
def findByToken (db : DB) (tok : String) : Option AccessToken :=
  single? (db.tokens.filter (fun a => a.token == tok))

/-- Embeds `.from('tasks').select('id, name, description').eq('id', i).single()`. -/
def findTaskById (db : DB) (i : Nat) : Option Task :=
  single? (db.tasks.filter (fun t => t.id == i))

/-- Embeds `.from('messages').select(...).eq('id', i).single()`. -/
def findMessageById (db : DB) (i : Nat) : Option Message :=
  single? (db.messages.filter (fun m => m.id == i))

/-- Embeds `.from('task_access_tokens').update({ used_at: now }).eq('id', tid)`. -/
def markUsed (db : DB) (tid : Nat) (now : Int) : DB :=
  { db with tokens :=
      db.tokens.map (fun a => if a.id == tid then { a with used_at := some now } else a) }

/-- Result of the read path `getPublicTaskData`: `notFound` embeds the
`null` return, `error` the `{ error }` returns, `success` the final data
object `{ task, message, tokenData: { id, target_email } }`. -/
inductive ReadResult where
  | notFound
  | error (msg : String)
  | success (task : Task) (message : Message) (tokenId : Nat) (targetEmail : String)
  deriving DecidableEq, Repr

/-- Embeds `getPublicTaskData` from `src/app/public/task/[token]/page.tsx`
(service-client version).  `cfgOk` models the presence of the Supabase
environment variables, `markUsedOk` the success of the mark-as-used
update; `now` is the current time.  Returns the result together with the
resulting store state. -/
def getPublicTaskData (tok : String) (now : Int) (cfgOk markUsedOk : Bool)
    (db : DB) : ReadResult × DB :=
  if !cfgOk then
    (.error "Server configuration error. Cannot load task data.", db)
  else
    match findByToken db tok with
    | none => (.notFound, db)
    | some td =>
      if td.expires_at < now then
        (.error "This link has expired.", db)
      else if td.used_at.isSome then
        (.error "This link has already been used to view the message.", db)
      else if !markUsedOk then
        (.error "An error occurred while accessing this link. Please try again later.", db)
      else
        let db2 := markUsed db td.id now
        match findTaskById db2 td.task_id with
        | none => (.error "The associated task could not be found.", db2)
        | some task =>
          match findMessageById db2 td.message_id with
          | none => (.error "The specific message could not be found.", db2)
          | some msg => (.success task msg td.id td.target_email, db2)

/-- Result of `addPublicReply`: an error string or the redirect to the
reply-success page. -/
inductive ReplyResult where
  | error (msg : String)
  | redirectSuccess
  deriving DecidableEq, Repr

/-- Embeds `addPublicReply` from `src/app/actions.ts`.  `cfgOk` models the
presence of the Supabase environment variables, `insertOk` the success of
the message insert; `nextMsgId` is the id the store assigns to the
inserted row. -/
def addPublicReply (tok : String) (replyContent : String) (now : Int)
    (cfgOk insertOk : Bool) (nextMsgId : Nat) (db : DB) : ReplyResult × DB :=
  let reply := strTrim replyContent
  if reply == "" then
    (.error "Reply cannot be empty.", db)
  else if !cfgOk then
    (.error "Server configuration error.", db)
  else
    match findByToken db tok with
    | none => (.error "Failed to send reply. Invalid link.", db)
    | some td =>
      if td.expires_at < now then
        (.error "Failed to send reply. Link has expired.", db)
      else if !insertOk then
        (.error "Failed to save reply. Please try again later.", db)
      else
        (.redirectSuccess,
         { db with messages := db.messages ++
             [⟨nextMsgId, td.task_id, none, some td.target_email, reply, true⟩] })

/-- Token lifetime used by the issuer: `7 * 24 * 60 * 60 * 1000` ms. -/
def expiryDurationMs : Int := 7 * 24 * 60 * 60 * 1000

/-- Result value of `addChatMessage`: an error string, or success with the
created message and the token string made public (absent when no token
was issued or its insertion failed). -/
inductive ChatResult where
  | error (msg : String)
  | ok (newMessage : Message) (publicToken : Option String)
  deriving DecidableEq, Repr

/-- Full outcome of the issuer: result value, resulting store state, and
whether the notifier was invoked. -/
structure ChatOutcome where
  result : ChatResult
  db : DB
  emailSent : Bool
  deriving DecidableEq, Repr

/-- Target email computed by the issuer: `emailMatch[0].trim()` when
`emailPrefixRegex` matches the trimmed content, else `null`. -/
def chatTargetEmail (content : String) : Option String :=
  match emailMatchLen (strTrim content).data with
  | some n => some (strTrim ⟨(strTrim content).data.take n⟩)
  | none => none

/-- Message text computed by the issuer: the trimmed content with a
matched email prefix removed and the remainder trimmed again. -/
def chatMessageToSend (content : String) : String :=
  match emailMatchLen (strTrim content).data with
  | some n => strTrim ⟨(strTrim content).data.drop n⟩
  | none => strTrim content

/-- Embeds `addChatMessage` from `src/app/actions.ts`.  `authOk` models a
present authenticated user with id `userId`; `msgInsertOk` and
`tokenInsertOk` the success of the two inserts; `newToken` the generated
uuid; `nextMsgId` and `nextTokId` the row ids the store assigns; `now`
the current time. -/
def addChatMessage (taskId : Nat) (content : String) (userId : String)
    (authOk msgInsertOk tokenInsertOk : Bool) (newToken : String)
    (nextMsgId nextTokId : Nat) (now : Int) (db : DB) : ChatOutcome :=
  if !authOk then ⟨.error "Authentication required", db, false⟩
  else
    let target_email : Option String := chatTargetEmail content
    let messageToSend : String := chatMessageToSend content
    if messageToSend == "" then
      ⟨.error "Message content cannot be empty.", db, false⟩
    else if !msgInsertOk then
      ⟨.error "Database error: insert failed", db, false⟩
    else
      let msg : Message := ⟨nextMsgId, taskId, some userId, target_email, messageToSend, false⟩
      let db1 : DB := { db with messages := db.messages ++ [msg] }
      match target_email with
      | none => ⟨.ok msg none, db1, false⟩
      | some e =>
        if !tokenInsertOk then
          ⟨.ok msg none, db1, false⟩
        else
          let row : AccessToken :=
            ⟨nextTokId, newToken, taskId, nextMsgId, e, userId,
             now + expiryDurationMs, none⟩
          let db2 : DB := { db1 with tokens := db1.tokens ++ [row] }
          match findTaskById db2 taskId with
          | none => ⟨.ok msg (some newToken), db2, false⟩
          | some _ => ⟨.ok msg (some newToken), db2, true⟩

/-- One protocol request, with its environment parameters (time, oracle
outcomes, fresh ids). -/
inductive Op where
  | read (tok : String) (now : Int) (cfgOk markUsedOk : Bool)
  | reply (tok : String) (content : String) (now : Int) (cfgOk insertOk : Bool)
      (nextMsgId : Nat)
  | chat (taskId : Nat) (content : String) (userId : String)
      (authOk msgInsertOk tokenInsertOk : Bool) (newToken : String)
      (nextMsgId nextTokId : Nat) (now : Int)

/-- State transition of one request. -/
def step : Op → DB → DB
  | .read t n c m, db => (getPublicTaskData t n c m db).2
  | .reply t r n c i mid, db => (addPublicReply t r n c i mid db).2
  | .chat tid ct u a mi ti ntok mid tkid n, db =>
      (addChatMessage tid ct u a mi ti ntok mid tkid n db).db

/-- Sequential run of requests against the store. -/
def run (ops : List Op) (db : DB) : DB :=
  ops.foldl (fun d o => step o d) db

/-- Rewrites the `used_at` field of every stored token to `u`; used to
state that an operation is insensitive to the read-consumption state. -/
def setAllUsed (db : DB) (u : Option Int) : DB :=
  { db with tokens := db.tokens.map (fun a => { a with used_at := u }) }

/-- Sample task row used in concrete scenarios. -/
def taskA : Task := ⟨10, "T", none⟩

/-- Sample shared message row used in concrete scenarios. -/
def msgA : Message := ⟨20, 10, some "u1", none, "hello", false⟩

/-- Sample unused token (expires at 100). -/
def tokA : AccessToken := ⟨1, "tok", 10, 20, "a@b.co", "u1", 100, none⟩

/-- Sample already-used token (expires at 100, used at 5). -/
def tokB : AccessToken := ⟨2, "tokB", 10, 20, "a@b.co", "u1", 100, some 5⟩

/-- Sample store with one task, one message and the unused token. -/
def dbA : DB := ⟨[taskA], [msgA], [tokA]⟩

/-- Sample store holding the already-used token. -/
def dbB : DB := ⟨[taskA], [msgA], [tokB]⟩

/-- Sample store where the token's bound task row is missing. -/
def dbNoTask : DB := ⟨[], [msgA], [tokA]⟩

/-- Sample store where the token's bound message row is missing. -/
def dbNoMsg : DB := ⟨[taskA], [], [tokA]⟩

theorem single?_eq_some {α : Type} {l : List α} {a : α} :
    single? l = some a ↔ l = [a] := by
  cases l with
  | nil => simp [single?]
  | cons x xs =>
    cases xs with
    | nil => simp [single?]
    | cons y ys => simp [single?]

theorem filter_token_map (l : List AccessToken) (f : AccessToken → AccessToken)
    (hf : ∀ a, (f a).token = a.token) (tok : String) :
    (l.map f).filter (fun a => a.token == tok)
      = (l.filter (fun a => a.token == tok)).map f := by
  rw [List.filter_map]
  congr 1
  apply List.filter_congr
  intro a _
  simp [hf a]

theorem findByToken_map (db : DB) (f : AccessToken → AccessToken)
    (hf : ∀ a, (f a).token = a.token) (tok : String) :
    findByToken { db with tokens := db.tokens.map f } tok
      = (findByToken db tok).map f := by
  unfold findByToken
  dsimp only
  rw [filter_token_map db.tokens f hf tok]
  cases h : db.tokens.filter (fun a => a.token == tok) with
  | nil => simp [single?]
  | cons x xs =>
    cases xs with
    | nil => simp [single?]
    | cons y ys => simp [single?]

theorem setAllUsed_messages (db : DB) (u : Option Int) :
    (setAllUsed db u).messages = db.messages := rfl

theorem findByToken_setAllUsed (db : DB) (u : Option Int) (tok : String) :
    findByToken (setAllUsed db u) tok
      = (findByToken db tok).map (fun a => { a with used_at := u }) := by
  unfold setAllUsed
  exact findByToken_map db (fun a => { a with used_at := u }) (fun a => rfl) tok

theorem markUsed_token_preserved (tid : Nat) (now : Int) (a : AccessToken) :
    (if a.id == tid then { a with used_at := some now } else a).token = a.token := by
  split <;> rfl

theorem findByToken_markUsed (db : DB) (tok : String) (td : AccessToken) (now : Int)
    (h : findByToken db tok = some td) :
    findByToken (markUsed db td.id now) tok = some { td with used_at := some now } := by
  unfold markUsed
  rw [findByToken_map db _ (markUsed_token_preserved td.id now) tok, h]
  simp

theorem findTaskById_markUsed (db : DB) (tid : Nat) (now : Int) (i : Nat) :
    findTaskById (markUsed db tid now) i = findTaskById db i := rfl

theorem findMessageById_markUsed (db : DB) (tid : Nat) (now : Int) (i : Nat) :
    findMessageById (markUsed db tid now) i = findMessageById db i := rfl

theorem addPublicReply_tokens (tok r : String) (now : Int) (c i : Bool)
    (mid : Nat) (db : DB) :
    ((addPublicReply tok r now c i mid db).2).tokens = db.tokens := by
  unfold addPublicReply
  dsimp only
  split
  · rfl
  · split
    · rfl
    · split
      · rfl
      · split
        · rfl
        · split <;> rfl

theorem getPublicTaskData_db_cases (tok : String) (now : Int) (c m : Bool) (db : DB) :
    (getPublicTaskData tok now c m db).2 = db ∨
      ∃ tid, (getPublicTaskData tok now c m db).2 = markUsed db tid now := by
  unfold getPublicTaskData
  split
  · exact Or.inl rfl
  · split
    · exact Or.inl rfl
    · rename_i td _
      split
      · exact Or.inl rfl
      · split
        · exact Or.inl rfl
        · split
          · exact Or.inl rfl
          · dsimp only
            split
            · exact Or.inr ⟨td.id, rfl⟩
            · split
              · exact Or.inr ⟨td.id, rfl⟩
              · exact Or.inr ⟨td.id, rfl⟩

theorem addChatMessage_tokens_cases (taskId : Nat) (ct u : String) (a mi ti : Bool)
    (ntok : String) (mid tkid : Nat) (now : Int) (db : DB) :
    ∃ l, (addChatMessage taskId ct u a mi ti ntok mid tkid now db).db.tokens
      = db.tokens ++ l := by
  unfold addChatMessage
  dsimp only
  split
  · exact ⟨[], by simp⟩
  · split
    · exact ⟨[], by simp⟩
    · split
      · exact ⟨[], by simp⟩
      · split
        · exact ⟨[], by simp⟩
        · split
          · exact ⟨[], by simp⟩
          · split <;> exact ⟨[_], rfl⟩

theorem step_token_row_preserved (o : Op) (db : DB) (i : Nat) (a : AccessToken)
    (h : db.tokens[i]? = some a) :
    ∃ b, (step o db).tokens[i]? = some b ∧ b.id = a.id ∧ b.token = a.token ∧
      (a.used_at ≠ none → b.used_at ≠ none) := by
  cases o with
  | read t n c m =>
    rcases getPublicTaskData_db_cases t n c m db with hdb | ⟨tid, hdb⟩
    · exact ⟨a, by simp only [step]; rw [hdb]; exact h, rfl, rfl, fun hu => hu⟩
    · refine ⟨if a.id == tid then { a with used_at := some n } else a, ?_, ?_, ?_, ?_⟩
      · show (getPublicTaskData t n c m db).2.tokens[i]? = _
        rw [hdb]
        unfold markUsed
        rw [List.getElem?_map, h]
        rfl
      · split <;> rfl
      · split <;> rfl
      · intro hu
        split
        · simp
        · exact hu
  | reply t r n c ins mid =>
    refine ⟨a, ?_, rfl, rfl, fun hu => hu⟩
    show (addPublicReply t r n c ins mid db).2.tokens[i]? = some a
    rw [addPublicReply_tokens, h]
  | chat tid ct u au mi ti ntok mid tkid n =>
    rcases addChatMessage_tokens_cases tid ct u au mi ti ntok mid tkid n db with ⟨l, hl⟩
    refine ⟨a, ?_, rfl, rfl, fun hu => hu⟩
    show (addChatMessage tid ct u au mi ti ntok mid tkid n db).db.tokens[i]? = some a
    rw [hl]
    have hlt : i < db.tokens.length := by
      rcases List.getElem?_eq_some.mp h with ⟨hlt, _⟩
      exact hlt
    rw [List.getElem?_append_left hlt, h]

theorem run_token_row_preserved (ops : List Op) (db : DB) (i : Nat) (a : AccessToken)
    (h : db.tokens[i]? = some a) :
    ∃ b, (run ops db).tokens[i]? = some b ∧ b.id = a.id ∧ b.token = a.token ∧
      (a.used_at ≠ none → b.used_at ≠ none) := by
  induction ops generalizing db a with
  | nil => exact ⟨a, h, rfl, rfl, fun hu => hu⟩
  | cons o os ih =>
    rcases step_token_row_preserved o db i a h with ⟨b, hb, hid, htok, hused⟩
    rcases ih (step o db) b hb with ⟨c, hc, hid2, htok2, hused2⟩
    exact ⟨c, hc, hid2.trans hid, htok2.trans htok, fun hu => hused2 (hused hu)⟩

/-- Claim C10: a reply whose text trims to empty is rejected with the error
"Reply cannot be empty." before any token lookup, expiry check or state
change: the outcome is the same for every store, every token string
(including unknown or expired ones), every time and every oracle, and the
store is returned unchanged. -/
theorem emptyReplyCheckedFirst (db : DB) (tok r : String) (now : Int)
    (c i : Bool) (mid : Nat) (h : strTrim r = "") :
    addPublicReply tok r now c i mid db = (.error "Reply cannot be empty.", db) := by
  simp [addPublicReply, h]

/-- Witness for `emptyReplyCheckedFirst`: a whitespace-only reply with a
token string that matches no stored token. -/
theorem emptyReplyCheckedFirst_witness :
    addPublicReply "no-such-token" "   " 0 true true 9 dbA
      = (.error "Reply cannot be empty.", dbA) :=
  emptyReplyCheckedFirst dbA "no-such-token" "   " 0 true true 9 rfl

/-- Claim C9: whenever the remainder after stripping any email prefix and
trimming is empty, the issuer fails with the validation error "Message
content cannot be empty.", persists no message and creates no token (the
store is unchanged) and sends no email; in particular this holds for the
whitespace-only input. -/
theorem emptyAfterStripRejected :
    (∀ (db : DB) (taskId : Nat) (content userId : String) (mi ti : Bool)
        (ntok : String) (mid tkid : Nat) (now : Int),
      chatMessageToSend content = "" →
      addChatMessage taskId content userId true mi ti ntok mid tkid now db
        = ⟨.error "Message content cannot be empty.", db, false⟩)
    ∧ addChatMessage 10 "   " "u1" true true true "uuid1" 21 2 1000 dbA
        = ⟨.error "Message content cannot be empty.", dbA, false⟩ := by
  constructor
  · intro db taskId content userId mi ti ntok mid tkid now h
    simp [addChatMessage, h]
  · rfl

/-- Witness for `emptyAfterStripRejected`: the whitespace-only input on a
concrete store, with the hypothesis evaluated by `rfl`. -/
theorem emptyAfterStripRejected_witness :
    addChatMessage 5 "  " "u9" true false true "t" 1 2 3 dbB
      = ⟨.error "Message content cannot be empty.", dbB, false⟩ :=
  emptyAfterStripRejected.1 dbB 5 "  " "u9" false true "t" 1 2 3 rfl

/-- Claim C8: for the input message text
"alice@example.com   Please review this" the issuer splits off the email
prefix, so the target email is "alice@example.com" and the stored message
content is "Please review this"; the successful call returns that message
and the generated token. -/
theorem emailPrefixSplitIssuance :
    chatTargetEmail "alice@example.com   Please review this" = some "alice@example.com" ∧
    chatMessageToSend "alice@example.com   Please review this" = "Please review this" ∧
    (addChatMessage 10 "alice@example.com   Please review this" "u1" true true true
        "uuid1" 21 2 1000 dbA).result
      = .ok ⟨21, 10, some "u1", some "alice@example.com", "Please review this", false⟩
          (some "uuid1") ∧
    (addChatMessage 10 "alice@example.com   Please review this" "u1" true true true
        "uuid1" 21 2 1000 dbA).db.tokens
      = dbA.tokens ++ [⟨2, "uuid1", 10, 21, "alice@example.com", "u1",
          1000 + expiryDurationMs, none⟩] :=
  ⟨rfl, rfl, rfl, rfl⟩

/-- Claim C7: when the issuer has persisted the message and the token-row
insertion fails, the message remains in the store, the result is a success
carrying the created message and an absent token, no token row is added,
and no notification email is sent. -/
theorem tokenInsertFailurePreservesMessage (db : DB) (taskId : Nat)
    (content userId newTok : String) (mid tkid : Nat) (now : Int) (e : String)
    (he : chatTargetEmail content = some e) (hm : chatMessageToSend content ≠ "") :
    addChatMessage taskId content userId true true false newTok mid tkid now db
      = ⟨.ok ⟨mid, taskId, some userId, some e, chatMessageToSend content, false⟩ none,
         { db with messages := db.messages ++
             [⟨mid, taskId, some userId, some e, chatMessageToSend content, false⟩] },
         false⟩ := by
  have hm2 : (chatMessageToSend content == "") = false := beq_eq_false_iff_ne.mpr hm
  simp [addChatMessage, he, hm2]

/-- Witness for `tokenInsertFailurePreservesMessage`: a concrete issuance
whose token insert fails. -/
theorem tokenInsertFailurePreservesMessage_witness :
    addChatMessage 10 "alice@example.com   Please review this" "u1" true true false
        "uuid1" 21 2 1000 dbA
      = ⟨.ok ⟨21, 10, some "u1", some "alice@example.com", "Please review this", false⟩ none,
         { dbA with messages := dbA.messages ++
             [⟨21, 10, some "u1", some "alice@example.com", "Please review this", false⟩] },
         false⟩ :=
  tokenInsertFailurePreservesMessage dbA 10 "alice@example.com   Please review this"
    "u1" "uuid1" 21 2 1000 "alice@example.com" rfl (by decide)

/-- Claim C6: every message inserted by a successful reply submission has
the shape: the assigned id, the task bound to the token, no user id,
sender email equal to the token target email, content equal to the
trimmed reply text, and the external flag set. -/
theorem replyMessageShape (db : DB) (tok r : String) (td : AccessToken)
    (now : Int) (mid : Nat) (h : findByToken db tok = some td)
    (hexp : ¬ td.expires_at < now) (hr : strTrim r ≠ "") :
    (addPublicReply tok r now true true mid db).2.messages
      = db.messages ++ [⟨mid, td.task_id, none, some td.target_email, strTrim r, true⟩] := by
  have hr2 : (strTrim r == "") = false := beq_eq_false_iff_ne.mpr hr
  simp [addPublicReply, hr2, h, hexp]

/-- Witness for `replyMessageShape`: a concrete reply on the sample store. -/
theorem replyMessageShape_witness :
    (addPublicReply "tok" " ok " 100 true true 21 dbA).2.messages
      = dbA.messages ++ [⟨21, 10, none, some "a@b.co", "ok", true⟩] :=
  replyMessageShape dbA "tok" " ok " tokA 100 21 rfl (by decide) (by decide)

/-- Claim C3: in the read path, when the write that marks the token used
fails, the operation returns the hard error and denies access, and the
store is unchanged; the statement holds for every tasks and messages
table, so the task and message are neither consulted nor returned. -/
theorem markUsedFailureDeniesAccess (db : DB) (tok : String) (td : AccessToken)
    (now : Int) (h : findByToken db tok = some td) (hexp : ¬ td.expires_at < now)
    (hu : td.used_at = none) :
    getPublicTaskData tok now true false db
      = (.error "An error occurred while accessing this link. Please try again later.", db) := by
  simp [getPublicTaskData, h, hexp, hu]

/-- Witness for `markUsedFailureDeniesAccess`: the sample store with the
mark-as-used write failing. -/
theorem markUsedFailureDeniesAccess_witness :
    getPublicTaskData "tok" 50 true false dbA
      = (.error "An error occurred while accessing this link. Please try again later.", dbA) :=
  markUsedFailureDeniesAccess dbA "tok" tokA 50 rfl (by decide) rfl

/-- Counterexample to claim C2 as stated: the sample token expires at 100,
yet at time exactly 100 the read path does not return the expired error
and the reply path does not return its expired error — the code treats
the token as invalid only strictly after the expiry instant, since both
paths test `expires_at < now`. -/
theorem expiryBoundaryCounterexample :
    tokA.expires_at = 100 ∧
    (getPublicTaskData "tok" 100 true true dbA).1 ≠ .error "This link has expired." ∧
    (addPublicReply "tok" "hi" 100 true true 21 dbA).1
      ≠ .error "Failed to send reply. Link has expired." := by
  decide

/-- Amended claim C2: a stored token is invalid strictly after its
`expires_at` instant.  For every current time strictly greater than
`expires_at` the read path returns "This link has expired." and the reply
path (with a non-empty reply) returns "Failed to send reply. Link has
expired."; at any time up to and including `expires_at` neither path
returns its expired error. -/
theorem expiryStrictlyAfter :
    (∀ (db : DB) (tok : String) (td : AccessToken) (now : Int) (m : Bool),
        findByToken db tok = some td → td.expires_at < now →
        (getPublicTaskData tok now true m db).1 = .error "This link has expired.")
    ∧ (∀ (db : DB) (tok r : String) (td : AccessToken) (now : Int) (i : Bool) (mid : Nat),
        findByToken db tok = some td → td.expires_at < now → strTrim r ≠ "" →
        (addPublicReply tok r now true i mid db).1
          = .error "Failed to send reply. Link has expired.")
    ∧ (∀ (db : DB) (tok : String) (td : AccessToken) (now : Int) (m : Bool),
        findByToken db tok = some td → now ≤ td.expires_at →
        (getPublicTaskData tok now true m db).1 ≠ .error "This link has expired.")
    ∧ (∀ (db : DB) (tok r : String) (td : AccessToken) (now : Int) (i : Bool) (mid : Nat),
        findByToken db tok = some td → now ≤ td.expires_at →
        (addPublicReply tok r now true i mid db).1
          ≠ .error "Failed to send reply. Link has expired.") := by
  refine ⟨?_, ?_, ?_, ?_⟩
  · intro db tok td now m h hexp
    simp [getPublicTaskData, h, hexp]
  · intro db tok r td now i mid h hexp hr
    have hr2 : (strTrim r == "") = false := beq_eq_false_iff_ne.mpr hr
    simp [addPublicReply, hr2, h, hexp]
  · intro db tok td now m h hle
    have hexp : ¬ td.expires_at < now := not_lt.mpr hle
    simp only [getPublicTaskData, Bool.not_true, Bool.false_eq_true, if_false, h, hexp,
      if_true]
    split
    · simp
    · split
      · simp
      · split
        · simp
        · split <;> simp
  · intro db tok r td now i mid h hle
    have hexp : ¬ td.expires_at < now := not_lt.mpr hle
    simp only [addPublicReply, Bool.not_true, Bool.false_eq_true, if_false, h, hexp,
      if_true]
    split
    · simp
    · split <;> simp

/-- Witness for `expiryStrictlyAfter`: the sample token (expiry 100) read
and replied to at time 101 (expired errors) and at time 100 (not the
expired errors). -/
theorem expiryStrictlyAfter_witness :
    (getPublicTaskData "tok" 101 true true dbA).1 = .error "This link has expired." ∧
    (addPublicReply "tok" "hi" 101 true true 21 dbA).1
      = .error "Failed to send reply. Link has expired." ∧
    (getPublicTaskData "tok" 100 true true dbA).1 ≠ .error "This link has expired." ∧
    (addPublicReply "tok" "hi" 100 true true 21 dbA).1
      ≠ .error "Failed to send reply. Link has expired." :=
  ⟨expiryStrictlyAfter.1 dbA "tok" tokA 101 true rfl (by decide),
   expiryStrictlyAfter.2.1 dbA "tok" "hi" tokA 101 true 21 rfl (by decide) (by decide),
   expiryStrictlyAfter.2.2.1 dbA "tok" tokA 100 true rfl (by decide),
   expiryStrictlyAfter.2.2.2 dbA "tok" "hi" tokA 100 true 21 rfl (by decide)⟩

/-- Claim C4: the read path performs its checks in order with the first
failure winning: absent token gives the generic not-found result; then the
expiry check (regardless of the used flag, the write oracle and the other
tables); then the used check (regardless of the write oracle and the other
tables); then the mark-as-used write, whose failure stops evaluation;
then the task fetch; then the message fetch; and success returns the
bound task, message, token id and target email.  Each case also fixes the
resulting store: unchanged before the write, marked-used from the write
on. -/
theorem readCheckOrder :
    (∀ (db : DB) (tok : String) (now : Int) (m : Bool),
        findByToken db tok = none →
        getPublicTaskData tok now true m db = (.notFound, db))
    ∧ (∀ (db : DB) (tok : String) (td : AccessToken) (now : Int) (m : Bool),
        findByToken db tok = some td → td.expires_at < now →
        getPublicTaskData tok now true m db = (.error "This link has expired.", db))
    ∧ (∀ (db : DB) (tok : String) (td : AccessToken) (now u : Int) (m : Bool),
        findByToken db tok = some td → ¬ td.expires_at < now → td.used_at = some u →
        getPublicTaskData tok now true m db
          = (.error "This link has already been used to view the message.", db))
    ∧ (∀ (db : DB) (tok : String) (td : AccessToken) (now : Int),
        findByToken db tok = some td → ¬ td.expires_at < now → td.used_at = none →
        getPublicTaskData tok now true false db
          = (.error "An error occurred while accessing this link. Please try again later.", db))
    ∧ (∀ (db : DB) (tok : String) (td : AccessToken) (now : Int),
        findByToken db tok = some td → ¬ td.expires_at < now → td.used_at = none →
        findTaskById db td.task_id = none →
        getPublicTaskData tok now true true db
          = (.error "The associated task could not be found.", markUsed db td.id now))
    ∧ (∀ (db : DB) (tok : String) (td : AccessToken) (now : Int) (task : Task),
        findByToken db tok = some td → ¬ td.expires_at < now → td.used_at = none →
        findTaskById db td.task_id = some task →
        findMessageById db td.message_id = none →
        getPublicTaskData tok now true true db
          = (.error "The specific message could not be found.", markUsed db td.id now))
    ∧ (∀ (db : DB) (tok : String) (td : AccessToken) (now : Int) (task : Task)
          (msg : Message),
        findByToken db tok = some td → ¬ td.expires_at < now → td.used_at = none →
        findTaskById db td.task_id = some task →
        findMessageById db td.message_id = some msg →
        getPublicTaskData tok now true true db
          = (.success task msg td.id td.target_email, markUsed db td.id now)) := by
  refine ⟨?_, ?_, ?_, ?_, ?_, ?_, ?_⟩
  · intro db tok now m h
    simp [getPublicTaskData, h]
  · intro db tok td now m h hexp
    simp [getPublicTaskData, h, hexp]
  · intro db tok td now u m h hexp hu
    simp [getPublicTaskData, h, hexp, hu]
  · intro db tok td now h hexp hu
    simp [getPublicTaskData, h, hexp, hu]
  · intro db tok td now h hexp hu htask
    simp [getPublicTaskData, h, hexp, hu, findTaskById_markUsed, htask]
  · intro db tok td now task h hexp hu htask hmsg
    simp [getPublicTaskData, h, hexp, hu, findTaskById_markUsed, htask,
      findMessageById_markUsed, hmsg]
  · intro db tok td now task msg h hexp hu htask hmsg
    simp [getPublicTaskData, h, hexp, hu, findTaskById_markUsed, htask,
      findMessageById_markUsed, hmsg]

/-- Witness for `readCheckOrder`: one concrete scenario per check — an
unknown token, an expired token, a used token, a failing mark-as-used
write, a missing task row, a missing message row, and full success. -/
theorem readCheckOrder_witness :
    getPublicTaskData "zzz" 0 true true dbA = (.notFound, dbA) ∧
    getPublicTaskData "tok" 101 true true dbA = (.error "This link has expired.", dbA) ∧
    getPublicTaskData "tokB" 50 true true dbB
      = (.error "This link has already been used to view the message.", dbB) ∧
    getPublicTaskData "tok" 50 true false dbA
      = (.error "An error occurred while accessing this link. Please try again later.", dbA) ∧
    getPublicTaskData "tok" 50 true true dbNoTask
      = (.error "The associated task could not be found.", markUsed dbNoTask 1 50) ∧
    getPublicTaskData "tok" 50 true true dbNoMsg
      = (.error "The specific message could not be found.", markUsed dbNoMsg 1 50) ∧
    getPublicTaskData "tok" 50 true true dbA
      = (.success taskA msgA 1 "a@b.co", markUsed dbA 1 50) :=
  ⟨readCheckOrder.1 dbA "zzz" 0 true rfl,
   readCheckOrder.2.1 dbA "tok" tokA 101 true rfl (by decide),
   readCheckOrder.2.2.1 dbB "tokB" tokB 50 5 true rfl (by decide) rfl,
   readCheckOrder.2.2.2.1 dbA "tok" tokA 50 rfl (by decide) rfl,
   readCheckOrder.2.2.2.2.1 dbNoTask "tok" tokA 50 rfl (by decide) rfl rfl,
   readCheckOrder.2.2.2.2.2.1 dbNoMsg "tok" tokA 50 taskA rfl (by decide) rfl rfl rfl,
   readCheckOrder.2.2.2.2.2.2 dbA "tok" tokA 50 taskA msgA rfl (by decide) rfl rfl rfl⟩

/-- Claim C5: the reply path is independent of read consumption — it never
mutates any token row (first part, unconditionally over all branches), a
stored unexpired token with a non-empty trimmed reply succeeds with no
condition on its `used_at` (second part), and rewriting the `used_at`
field of every stored token arbitrarily changes neither the result nor
the inserted messages, so `used_at` is never read as a gate (third
part); repeated submissions therefore keep succeeding. -/
theorem replyIndependentOfReadConsumption :
    (∀ (tok r : String) (now : Int) (c i : Bool) (mid : Nat) (db : DB),
        ((addPublicReply tok r now c i mid db).2).tokens = db.tokens)
    ∧ (∀ (db : DB) (tok r : String) (td : AccessToken) (now : Int) (mid : Nat),
        findByToken db tok = some td → ¬ td.expires_at < now → strTrim r ≠ "" →
        (addPublicReply tok r now true true mid db).1 = .redirectSuccess)
    ∧ (∀ (tok r : String) (now : Int) (c i : Bool) (mid : Nat) (db : DB) (u : Option Int),
        (addPublicReply tok r now c i mid (setAllUsed db u)).1
            = (addPublicReply tok r now c i mid db).1
          ∧ (addPublicReply tok r now c i mid (setAllUsed db u)).2.messages
            = (addPublicReply tok r now c i mid db).2.messages) := by
  refine ⟨?_, ?_, ?_⟩
  · intro tok r now c i mid db
    exact addPublicReply_tokens tok r now c i mid db
  · intro db tok r td now mid h hexp hr
    have hr2 : (strTrim r == "") = false := beq_eq_false_iff_ne.mpr hr
    simp [addPublicReply, hr2, h, hexp]
  · intro tok r now c i mid db u
    by_cases h1 : (strTrim r == "") = true
    · simp [addPublicReply, h1, setAllUsed_messages]
    · by_cases h2 : c = true
      · rcases hf : findByToken db tok with _ | td
        · simp [addPublicReply, h1, h2, findByToken_setAllUsed, hf, setAllUsed_messages]
        · by_cases h3 : td.expires_at < now
          · simp [addPublicReply, h1, h2, findByToken_setAllUsed, hf, h3,
              setAllUsed_messages]
          · by_cases h4 : i = true
            · simp [addPublicReply, h1, h2, findByToken_setAllUsed, hf, h3, h4,
                setAllUsed_messages]
            · simp [addPublicReply, h1, h2, findByToken_setAllUsed, hf, h3, h4,
                setAllUsed_messages]
      · simp [addPublicReply, h1, h2, setAllUsed_messages]

/-- Witness for `replyIndependentOfReadConsumption`: the token frame on a
successful reply, a reply that succeeds on an already-consumed token, and
invariance of a concrete reply under setting every token used. -/
theorem replyIndependentOfReadConsumption_witness :
    ((addPublicReply "tok" "yo" 50 true true 21 dbA).2).tokens = dbA.tokens ∧
    (addPublicReply "tokB" "yo" 50 true true 21 dbB).1 = .redirectSuccess ∧
    ((addPublicReply "tok" "yo" 50 true true 21 (setAllUsed dbA (some 9))).1
        = (addPublicReply "tok" "yo" 50 true true 21 dbA).1
      ∧ (addPublicReply "tok" "yo" 50 true true 21 (setAllUsed dbA (some 9))).2.messages
        = (addPublicReply "tok" "yo" 50 true true 21 dbA).2.messages) :=
  ⟨replyIndependentOfReadConsumption.1 "tok" "yo" 50 true true 21 dbA,
   replyIndependentOfReadConsumption.2.1 dbB "tokB" "yo" tokB 50 21 rfl (by decide)
     (by decide),
   replyIndependentOfReadConsumption.2.2 "tok" "yo" 50 true true 21 dbA (some 9)⟩

/-- Counterexample to claim C1 as stated: after a successful first read at
time 5, a second read of the same token at time 101 is denied, but with
the expired error rather than the "already used" error; moreover a first
read during which the mark-as-used write fails does not succeed, so the
unqualified "first read succeeds / every subsequent read returns the
already-used error" is false on the code. -/
theorem singleUseCounterexample :
    (getPublicTaskData "tok" 5 true true dbA).1 = .success taskA msgA 1 "a@b.co" ∧
    (getPublicTaskData "tok" 101 true true (getPublicTaskData "tok" 5 true true dbA).2).1
      = .error "This link has expired." ∧
    ReadResult.error "This link has expired."
      ≠ .error "This link has already been used to view the message." ∧
    (getPublicTaskData "tok" 5 true false dbA).1
      = .error "An error occurred while accessing this link. Please try again later." := by
  decide

/-- Amended claim C1: for a stored token that is unexpired and unused, a
read during which the mark-as-used write succeeds and the bound task and
message exist succeeds and leaves the token stored with `used_at` set to
the read time; any read of a token whose `used_at` is set, while it is
unexpired, is denied with the "already used" error; and no sequential run
of operations ever returns a stored token row whose `used_at` was set
back to the unused state. -/
theorem singleUseSemantics :
    (∀ (db : DB) (tok : String) (td : AccessToken) (now : Int) (task : Task)
        (msg : Message),
        findByToken db tok = some td → ¬ td.expires_at < now → td.used_at = none →
        findTaskById db td.task_id = some task →
        findMessageById db td.message_id = some msg →
        (getPublicTaskData tok now true true db).1
            = .success task msg td.id td.target_email
          ∧ findByToken (getPublicTaskData tok now true true db).2 tok
            = some { td with used_at := some now })
    ∧ (∀ (db : DB) (tok : String) (td : AccessToken) (now : Int) (m : Bool),
        findByToken db tok = some td → td.used_at ≠ none → ¬ td.expires_at < now →
        (getPublicTaskData tok now true m db).1
          = .error "This link has already been used to view the message.")
    ∧ (∀ (ops : List Op) (db : DB) (i : Nat) (a : AccessToken),
        db.tokens[i]? = some a → a.used_at ≠ none →
        ∃ b, (run ops db).tokens[i]? = some b ∧ b.id = a.id ∧ b.token = a.token ∧
          b.used_at ≠ none) := by
  refine ⟨?_, ?_, ?_⟩
  · intro db tok td now task msg h hexp hu htask hmsg
    have hdb : (getPublicTaskData tok now true true db).2 = markUsed db td.id now := by
      simp [getPublicTaskData, h, hexp, hu, findTaskById_markUsed, htask,
        findMessageById_markUsed, hmsg]
    refine ⟨?_, ?_⟩
    · simp [getPublicTaskData, h, hexp, hu, findTaskById_markUsed, htask,
        findMessageById_markUsed, hmsg]
    · rw [hdb]
      exact findByToken_markUsed db tok td now h
  · intro db tok td now m h hu hexp
    have hus : td.used_at.isSome = true := Option.ne_none_iff_isSome.mp hu
    simp [getPublicTaskData, h, hexp, hus]
  · intro ops db i a h hu
    rcases run_token_row_preserved ops db i a h with ⟨b, hb, hid, htok, hused⟩
    exact ⟨b, hb, hid, htok, hused hu⟩

/-- Witness for `singleUseSemantics`: a successful first read at time 50
marking the sample token used, the already-used denial on the consumed
sample token, and preservation of the used state across a concrete run. -/
theorem singleUseSemantics_witness :
    ((getPublicTaskData "tok" 50 true true dbA).1 = .success taskA msgA 1 "a@b.co" ∧
      findByToken (getPublicTaskData "tok" 50 true true dbA).2 "tok"
        = some { tokA with used_at := some 50 }) ∧
    (getPublicTaskData "tokB" 50 true true dbB).1
      = .error "This link has already been used to view the message." ∧
    ∃ b, (run [Op.read "tokB" 7 true true] dbB).tokens[0]? = some b ∧ b.id = tokB.id ∧
      b.token = tokB.token ∧ b.used_at ≠ none :=
  ⟨singleUseSemantics.1 dbA "tok" tokA 50 taskA msgA rfl (by decide) rfl rfl rfl,
   singleUseSemantics.2.1 dbB "tokB" tokB 50 true rfl (by decide) (by decide),
   singleUseSemantics.2.2 [Op.read "tokB" 7 true true] dbB 0 tokB rfl (by decide)⟩

end Todo
